import Mathlib

/-!
# Verification of the feldspar pipeline library

Shallow embedding of `feldspar/generators.py`, `feldspar/utils.py` and the
record model of `feldspar/base.py`, together with proofs settling the frozen
claims about caching, importing, metadata extraction and attribute parsing.

Modelling conventions:
* Python iterators are modelled by explicit state passing; `StopIteration`
  is the `none` arm of an `Option` result.
* Fallible Python code (uncaught `KeyError`, `AttributeError`, `TypeError`,
  `ValueError`) is modelled with `Except`.
* The records flowing through a pipeline are an arbitrary type `α`; an
  upstream stage is modelled by the list of records one fresh pass over it
  produces.
-/

namespace Feldspar

/-! ## The cache stage (`_CacheGenerator`, generators.py lines 520-575)

`_CacheGenerator.__iter__` executes `self._source = iter(self._source)`:
the field that initially holds the upstream *stage object* is overwritten
with the iterator obtained from it, and on later passes `iter` is applied
to that previous iterator.  Whether this restarts the upstream depends on
the upstream's iterator object:

* `XESImporter.__iter__` re-initialises its resources and returns `self`,
  so applying `iter` to it again restarts the pass from scratch
  (`selfRestart = true` below);
* the iterators produced by `_MapGenerator.__iter__` (`map(f, src)`),
  `_FilterGenerator.__iter__` (`filter(p, src)`) and by a plain list-backed
  `TraceGenerator` are ordinary one-shot iterators whose `__iter__` returns
  themselves unchanged, so a later `iter` continues where the previous pass
  stopped (`selfRestart = false`).

`Src` enumerates the objects the `_source` field can hold. -/

/-- The possible values of `self._source` in `_CacheGenerator`.
`stage xs sr` is the original upstream stage object (a fresh pass over it
yields `xs`); `cursor xs rem sr` is an iterator obtained from it with
`rem` still to be produced; `buffer` is the cache buffer object
(`self.__cache`: the in-memory list, or the `_PickleImporter` in file
mode); `bufferCursor rem` is an iterator over the buffer. -/
inductive Src (α : Type) where
  | stage (xs : List α) (selfRestart : Bool)
  | cursor (xs : List α) (rem : List α) (selfRestart : Bool)
  | buffer
  | bufferCursor (rem : List α)
  deriving DecidableEq, Repr

/-- State of a `_CacheGenerator` instance.  `cached` is `self.__cached`,
`buf` is the content of `self.__cache` (the in-memory list, or in file
mode the pickle frames currently in the cache file), `src` is
`self._source`.  `upNexts` counts the calls of `next` on an upstream
iterator and `upExhausts` the `StopIteration`s received from the upstream
(instrumentation used to state the "pulled to exhaustion at most once"
claims; it has no effect on the data flow). -/
structure CacheState (α : Type) where
  cached : Bool
  buf : List α
  src : Src α
  upNexts : Nat
  upExhausts : Nat
  deriving DecidableEq, Repr

/-- `iter(obj)` for each object the `_source` field can hold; `buf` is the
current buffer content.  `iter` on a stage yields a fresh cursor; on an
upstream cursor it restarts only if the upstream's iterator restarts
itself (see above); on the buffer object it yields a fresh cursor over the
buffer (a new list iterator, resp. `_PickleImporter.__iter__` reopening
the cache file); on a buffer cursor it returns the iterator itself. -/
def Src.pyIter (s : Src α) (buf : List α) : Src α :=
  match s with
  | .stage xs sr => .cursor xs xs sr
  | .cursor xs rem sr => if sr then .cursor xs xs sr else .cursor xs rem sr
  | .buffer => .bufferCursor buf
  | .bufferCursor rem => .bufferCursor rem

/-- `_CacheGenerator.__iter__` (lines 543-547): when cached, first
`self._source = self.__cache`; then always `self._source =
iter(self._source)`. -/
def cacheIter (s : CacheState α) : CacheState α :=
  let s' := if s.cached then { s with src := Src.buffer } else s
  { s' with src := s'.src.pyIter s'.buf }

/-- `_CacheGenerator.__next__` (lines 549-559): pull one record from
`self._source`; while not cached, append it to `self.__cache`; upon
`StopIteration` while not cached, mark the cache populated and swap
`self._source` to the buffer object.  The `stage`/`buffer` arms are
unreachable through the iteration protocol (`__iter__` always runs first
and leaves a cursor in `src`); Python would raise `TypeError` there. -/
def cacheNext (s : CacheState α) : Option α × CacheState α :=
  match s.src with
  | .cursor xs rem sr =>
      match rem with
      | t :: rest =>
          let s1 := { s with src := Src.cursor xs rest sr, upNexts := s.upNexts + 1 }
          if s.cached then (some t, s1)
          else (some t, { s1 with buf := s1.buf ++ [t] })
      | [] =>
          let s1 := { s with upNexts := s.upNexts + 1, upExhausts := s.upExhausts + 1 }
          if s.cached then (none, s1)
          else (none, { s1 with cached := true, src := Src.buffer })
  | .bufferCursor rem =>
      match rem with
      | t :: rest =>
          let s1 := { s with src := Src.bufferCursor rest }
          if s.cached then (some t, s1)
          else (some t, { s1 with buf := s1.buf ++ [t] })
      | [] =>
          if s.cached then (none, s)
          else (none, { s with cached := true, src := Src.buffer })
  | .stage _ _ => (none, s)
  | .buffer => (none, s)

/-- Pull up to `n` records from the (already `__iter__`-ed) cache stage,
stopping at the first `StopIteration`; models the consumption loop of
`list(...)` (with `n` as fuel) as well as a partial pass that abandons
iteration after a bounded number of records. -/
def pulls (s : CacheState α) : Nat → List α × CacheState α
  | 0 => ([], s)
  | n + 1 =>
      match cacheNext s with
      | (none, s') => ([], s')
      | (some t, s') =>
          let p := pulls s' n
          (t :: p.1, p.2)

/-- Number of records still to be produced by the iterator in `src`;
used only to size the fuel of a full pass. -/
def Src.remLen : Src α → Nat
  | .stage xs _ => xs.length
  | .cursor _ rem _ => rem.length
  | .buffer => 0
  | .bufferCursor rem => rem.length

/-- One full (exhausting) pass `list(c)` over the cache stage: call
`__iter__`, then pull until `StopIteration`.  Fuel `remLen + 1` always
reaches the terminating `StopIteration` (proved by the drain lemmas
below). -/
def fullPass (s : CacheState α) : List α × CacheState α :=
  let s' := cacheIter s
  pulls s' (s'.src.remLen + 1)

/-- `k` consecutive full passes; returns the list of the passes' outputs
and the final state. -/
def passOutputs : CacheState α → Nat → List (List α) × CacheState α
  | s, 0 => ([], s)
  | s, k + 1 =>
      let p := fullPass s
      let q := passOutputs p.2 k
      (p.1 :: q.1, q.2)

/-- `_CacheGenerator.__init__` in memory mode (`filepath=None`):
`__cached = False`, `__cache = []`, `_source = source`.  `xs` is the
sequence a fresh pass over the upstream produces, `sr` whether the
upstream's iterator restarts itself under `iter` (see `Src`). -/
def cacheInitMem (xs : List α) (sr : Bool) : CacheState α :=
  { cached := false, buf := [], src := Src.stage xs sr, upNexts := 0, upExhausts := 0 }

/-! ### Drain lemmas for the cache stage -/

/-- Draining an unpopulated cache whose source cursor still has `rem` to
produce: the pass yields `rem`, appends it to the buffer, marks the cache
populated and swaps the source to the buffer object, having pulled the
upstream `rem.length + 1` times and received one `StopIteration`. -/
theorem pulls_cursor_uncached (rem : List α) :
    ∀ (xs : List α) (sr : Bool) (b : List α) (n e : Nat),
    pulls ⟨false, b, Src.cursor xs rem sr, n, e⟩ (rem.length + 1) =
      (rem, ⟨true, b ++ rem, Src.buffer, n + rem.length + 1, e + 1⟩) := by
  induction rem with
  | nil =>
      intro xs sr b n e
      simp [pulls, cacheNext]
  | cons t rest ih =>
      intro xs sr b n e
      rw [List.length_cons]
      rw [show pulls (⟨false, b, Src.cursor xs (t :: rest) sr, n, e⟩ : CacheState α)
            (rest.length + 1 + 1) =
          (t :: (pulls ⟨false, b ++ [t], Src.cursor xs rest sr, n + 1, e⟩ (rest.length + 1)).1,
            (pulls ⟨false, b ++ [t], Src.cursor xs rest sr, n + 1, e⟩ (rest.length + 1)).2)
        from rfl]
      rw [ih]
      simp [List.append_assoc]
      omega

/-- Draining a populated cache serving from a buffer cursor yields the
cursor's remainder and never touches the upstream counters. -/
theorem pulls_bufferCursor_cached (rem : List α) :
    ∀ (b : List α) (n e : Nat),
    pulls ⟨true, b, Src.bufferCursor rem, n, e⟩ (rem.length + 1) =
      (rem, ⟨true, b, Src.bufferCursor [], n, e⟩) := by
  induction rem with
  | nil => intro b n e; simp [pulls, cacheNext]
  | cons t rest ih =>
      intro b n e
      rw [List.length_cons]
      rw [show pulls (⟨true, b, Src.bufferCursor (t :: rest), n, e⟩ : CacheState α)
            (rest.length + 1 + 1) =
          (t :: (pulls ⟨true, b, Src.bufferCursor rest, n, e⟩ (rest.length + 1)).1,
            (pulls ⟨true, b, Src.bufferCursor rest, n, e⟩ (rest.length + 1)).2)
        from rfl]
      rw [ih]

/-- A full pass over a populated cache yields exactly the buffer, with no
upstream activity. -/
theorem fullPass_cached (b : List α) (src : Src α) (n e : Nat) :
    fullPass ⟨true, b, src, n, e⟩ = (b, ⟨true, b, Src.bufferCursor [], n, e⟩) := by
  simp [fullPass, cacheIter, Src.pyIter, Src.remLen, pulls_bufferCursor_cached]

/-- `k` full passes over a populated cache all yield the buffer and leave
the upstream counters unchanged. -/
theorem passOutputs_cached (k : Nat) :
    ∀ (b : List α) (src : Src α) (n e : Nat),
    passOutputs ⟨true, b, src, n, e⟩ k =
      (List.replicate k b,
        if k = 0 then ⟨true, b, src, n, e⟩ else ⟨true, b, Src.bufferCursor [], n, e⟩) := by
  induction k with
  | zero => intro b src n e; simp [passOutputs]
  | succ k ih =>
      intro b src n e
      simp only [passOutputs, fullPass_cached, ih]
      cases k <;> simp [List.replicate]

/-- Draining an unpopulated cache cursor for only `k ≤ rem.length` records
(a partial pass): the first `k` records are yielded and buffered, the
cursor advances by `k`, the cache stays unpopulated and the upstream
receives no `StopIteration`. -/
theorem pulls_cursor_uncached_bounded (k : Nat) :
    ∀ (rem xs : List α) (sr : Bool) (b : List α) (n e : Nat), k ≤ rem.length →
    pulls ⟨false, b, Src.cursor xs rem sr, n, e⟩ k =
      (rem.take k, ⟨false, b ++ rem.take k, Src.cursor xs (rem.drop k) sr, n + k, e⟩) := by
  induction k with
  | zero => intro rem xs sr b n e _; simp [pulls]
  | succ k ih =>
      intro rem xs sr b n e h
      cases rem with
      | nil => simp at h
      | cons t rest =>
          rw [show pulls (⟨false, b, Src.cursor xs (t :: rest) sr, n, e⟩ : CacheState α)
                (k + 1) =
              (t :: (pulls ⟨false, b ++ [t], Src.cursor xs rest sr, n + 1, e⟩ k).1,
                (pulls ⟨false, b ++ [t], Src.cursor xs rest sr, n + 1, e⟩ k).2) from rfl]
          rw [ih rest xs sr (b ++ [t]) (n + 1) e (by simpa using h)]
          simp [List.append_assoc]
          omega

/-! ## File-mode cache construction (`_CacheGenerator.__init__`, lines 524-541)

With a `filepath` argument, `__init__` first runs
`validate_filepath(filepath)` (utils.py line 9: `os.path.exists`), raising
`ValueError` when the path does not exist; if the existing file has size
zero it eagerly runs `__pickle_generator_to_file`; then it sets
`self.__cache = _PickleImporter(filepath)`, swaps `source` for it and
marks the stage cached.  The file's size is zero iff it holds no pickle
frames (every frame is at least one byte). -/

/-- `_CacheGenerator.__pickle_generator_to_file` (lines 561-564): the
`for trace in source` loop appending one pickle frame per record.  Returns
the frames written in production order and the number of `next` calls the
loop made on the upstream (the last one receiving `StopIteration`). -/
def pickleLoop : List α → List α → List α × Nat
  | [], acc => (acc, 1)
  | t :: rest, acc =>
      let p := pickleLoop rest (acc ++ [t])
      (p.1, p.2 + 1)

/-- Entry point of the pickling pass: the loop starts on an empty file. -/
def pickle_generator_to_file (source : List α) : List α × Nat :=
  pickleLoop source []

theorem pickleLoop_eq (xs : List α) :
    ∀ acc : List α, pickleLoop xs acc = (acc ++ xs, xs.length + 1) := by
  induction xs with
  | nil => intro acc; simp [pickleLoop]
  | cons t rest ih => intro acc; simp [pickleLoop, ih, List.append_assoc]

/-- `_CacheGenerator.__init__` with a file target.  `xs` is the sequence a
fresh pass over the upstream produces, `fileExists` the result of
`os.path.exists(filepath)`, `fileFrames` the pickle frames the target file
currently holds.  On success the result is the constructed state together
with the frames the cache file holds after construction; the `ValueError`
for a missing path is the `error` arm. -/
def cacheInitFile (xs : List α) (fileExists : Bool) (fileFrames : List α) :
    Except Unit (CacheState α × List α) :=
  if fileExists = false then Except.error ()
  else if fileFrames.length = 0 then
    let p := pickle_generator_to_file xs
    Except.ok (⟨true, p.1, Src.buffer, p.2, 1⟩, p.1)
  else
    Except.ok (⟨true, fileFrames, Src.buffer, 0, 0⟩, fileFrames)

/-! ### Claims C1-C4 on the cache stage -/

/-- C1.  Memory-mode cache idempotence: for every upstream stage (any
output sequence `xs` and either iterator-restart behaviour `sr`), every
one of `k` consecutive full passes over `U.cache()` yields exactly `xs`
(the first populating pass and every buffer-served pass alike), and across
all passes the upstream receives at most one `StopIteration`, i.e. is
pulled to exhaustion at most once. -/
theorem C1_memory_cache_idempotent (α : Type) (xs : List α) (sr : Bool) (k : Nat) :
    (passOutputs (cacheInitMem xs sr) k).1 = List.replicate k xs ∧
    (passOutputs (cacheInitMem xs sr) k).2.upExhausts ≤ 1 := by
  cases k with
  | zero => simp [passOutputs, cacheInitMem]
  | succ k =>
      have h1 : fullPass (cacheInitMem xs sr) =
          (xs, ⟨true, xs, Src.buffer, xs.length + 1, 1⟩) := by
        have := pulls_cursor_uncached xs xs sr [] 0 0
        simp only [fullPass, cacheIter, cacheInitMem, Src.pyIter, Src.remLen]
        simpa using this
      simp only [passOutputs, h1, passOutputs_cached]
      cases k <;> simp [List.replicate_succ]

/-- C2, counterexample.  The claim asserts that a target path that *does
not exist* also triggers eager population; in the code
`validate_filepath` (= `os.path.exists`) fails for such a path and
construction raises `ValueError` instead — no pass over the upstream and
no serialization happen. -/
theorem C2_counterexample :
    cacheInitFile ([0] : List Nat) false [] = Except.error () := by
  rfl

/-- C2 as amended: for a target path naming an *existing, empty* file,
construction itself performs one fully exhausting pass over the upstream
(`upNexts = xs.length + 1`, `upExhausts = 1` already at construction
time), serializes exactly the upstream's records to the file in order
(the file's frames equal `xs`), marks the stage populated, and every one
of `k` subsequent passes is served solely from the file, yielding `xs`
with no further upstream activity. -/
theorem C2_file_cache_eager (α : Type) (xs : List α) (k : Nat) :
    cacheInitFile xs true [] =
      Except.ok (⟨true, xs, Src.buffer, xs.length + 1, 1⟩, xs) ∧
    passOutputs (⟨true, xs, Src.buffer, xs.length + 1, 1⟩ : CacheState α) k =
      (List.replicate k xs,
        if k = 0 then ⟨true, xs, Src.buffer, xs.length + 1, 1⟩
        else ⟨true, xs, Src.bufferCursor [], xs.length + 1, 1⟩) := by
  constructor
  · simp [cacheInitFile, pickle_generator_to_file, pickleLoop_eq]
  · exact passOutputs_cached k xs (Src.buffer) (xs.length + 1) 1

/-- C3.  Build-once-read-forever: when the target file already exists and
is non-empty (`fs.length ≠ 0`), construction leaves the file unchanged
and yields an immediately populated stage with zero upstream pulls; the
construction result is independent of the upstream (`xs` vs `ys`); and
every one of `k` passes yields exactly the file's frames `fs`, still with
zero upstream pulls. -/
theorem C3_file_cache_prepopulated (α : Type) (xs ys fs : List α) (k : Nat)
    (hfs : fs.length ≠ 0) :
    cacheInitFile xs true fs = Except.ok (⟨true, fs, Src.buffer, 0, 0⟩, fs) ∧
    cacheInitFile xs true fs = cacheInitFile ys true fs ∧
    (passOutputs (⟨true, fs, Src.buffer, 0, 0⟩ : CacheState α) k).1 = List.replicate k fs ∧
    (passOutputs (⟨true, fs, Src.buffer, 0, 0⟩ : CacheState α) k).2.upNexts = 0 := by
  refine ⟨?_, ?_, ?_, ?_⟩
  · simp [cacheInitFile, hfs]
  · simp [cacheInitFile, hfs]
  · simp [passOutputs_cached]
  · rw [passOutputs_cached]
    cases k <;> simp

/-- Witness for C3 at a concrete input: a file holding the single frame
`7`, two different upstreams, two passes. -/
theorem C3_witness :
    ([7] : List Nat).length ≠ 0 ∧
    (cacheInitFile ([1, 2] : List Nat) true [7] =
        Except.ok (⟨true, [7], Src.buffer, 0, 0⟩, [7]) ∧
      cacheInitFile ([1, 2] : List Nat) true [7] = cacheInitFile [] true [7] ∧
      (passOutputs (⟨true, [7], Src.buffer, 0, 0⟩ : CacheState Nat) 2).1 =
        List.replicate 2 [7] ∧
      (passOutputs (⟨true, [7], Src.buffer, 0, 0⟩ : CacheState Nat) 2).2.upNexts = 0) :=
  ⟨by decide, C3_file_cache_prepopulated Nat [1, 2] [] [7] 2 (by decide)⟩

/-- C4, counterexample.  For an upstream whose iterator does not restart
itself under `iter` (a map stage, a filter stage, or a plain list-backed
source — here the output sequence `[0, 1]` with `selfRestart = false`),
pulling one record and abandoning the pass leaves the cache unpopulated,
but the subsequent full iteration yields only `[1]`, not the upstream's
full current output `[0, 1]` as the claim states: the cache stage resumes
the half-consumed iterator instead of restarting the upstream. -/
theorem C4_counterexample :
    ((pulls (cacheIter (cacheInitMem ([0, 1] : List Nat) false)) 1).2.cached = false) ∧
    (fullPass (pulls (cacheIter (cacheInitMem ([0, 1] : List Nat) false)) 1).2).1 = [1] ∧
    (fullPass (pulls (cacheIter (cacheInitMem ([0, 1] : List Nat) false)) 1).2).1 ≠
      [0, 1] := by
  decide

/-- C4 as amended: a partial pass of `k ≤ xs.length` records leaves the
memory-mode cache unpopulated (first conjunct, exactly as claimed); the
subsequent full iteration yields the upstream's full current output `xs`
when the upstream's iterator restarts itself under `iter` (as the XES
importer does), but only the remaining records `xs.drop k` when it does
not (map/filter stages, plain list-backed sources). -/
theorem C4_partial_pass (α : Type) (xs : List α) (sr : Bool) (k : Nat)
    (hk : k ≤ xs.length) :
    ((pulls (cacheIter (cacheInitMem xs sr)) k).2.cached = false) ∧
    (fullPass (pulls (cacheIter (cacheInitMem xs sr)) k).2).1 =
      (if sr then xs else xs.drop k) := by
  have hstate : (pulls (cacheIter (cacheInitMem xs sr)) k).2 =
      ⟨false, xs.take k, Src.cursor xs (xs.drop k) sr, k, 0⟩ := by
    rw [show cacheIter (cacheInitMem xs sr) =
        (⟨false, [], Src.cursor xs xs sr, 0, 0⟩ : CacheState α) from rfl]
    rw [pulls_cursor_uncached_bounded k xs xs sr [] 0 0 hk]
    simp
  refine ⟨by rw [hstate], ?_⟩
  rw [hstate]
  cases sr with
  | false =>
      rw [show fullPass (⟨false, xs.take k, Src.cursor xs (xs.drop k) false, k, 0⟩ :
            CacheState α) =
          pulls ⟨false, xs.take k, Src.cursor xs (xs.drop k) false, k, 0⟩
            ((xs.drop k).length + 1) from rfl]
      rw [pulls_cursor_uncached (xs.drop k) xs false (xs.take k) k 0]
      simp
  | true =>
      rw [show fullPass (⟨false, xs.take k, Src.cursor xs (xs.drop k) true, k, 0⟩ :
            CacheState α) =
          pulls ⟨false, xs.take k, Src.cursor xs xs true, k, 0⟩ (xs.length + 1) from rfl]
      rw [pulls_cursor_uncached xs xs true (xs.take k) k 0]
      simp

/-- Witness for C4 at a concrete input: importer-like upstream
(`selfRestart = true`) with output `[0, 1, 2]`, partial pass of one
record. -/
theorem C4_witness :
    (1 : Nat) ≤ ([0, 1, 2] : List Nat).length ∧
    (((pulls (cacheIter (cacheInitMem ([0, 1, 2] : List Nat) true)) 1).2.cached = false) ∧
      (fullPass (pulls (cacheIter (cacheInitMem ([0, 1, 2] : List Nat) true)) 1).2).1 =
        (if true then [0, 1, 2] else ([0, 1, 2] : List Nat).drop 1)) :=
  ⟨by decide, C4_partial_pass Nat [0, 1, 2] true 1 (by decide)⟩

/-! ## Stage metadata

`ElementGenerator.__init__` (lines 41-43) stores its `attributes`
parameter (default `None`) in the private `__attributes` field, read back
by the `attributes` property (lines 202-206).  `_MapGenerator.__init__`
(lines 593-595) and `_FilterGenerator.__init__` (lines 582-584) call
`super().__init__(source)` *without* an `attributes` argument, and
neither overrides the property. -/

/-- The metadata facet of an `ElementGenerator`: the value of the private
`__attributes` field.  `none` is Python's `None`; `μ` is the type of a
dataset metadata record. -/
structure ElemGen (μ : Type) where
  attrs : Option μ
  deriving DecidableEq, Repr

/-- `ElementGenerator.attributes` property (lines 202-206). -/
def elemGenAttributes (g : ElemGen μ) : Option μ := g.attrs

/-- `_MapGenerator.__init__`: the new stage's `__attributes` is `None`
whatever the upstream carries. -/
def mapGenInit (_source : ElemGen μ) : ElemGen μ := { attrs := none }

/-- `_FilterGenerator.__init__`: likewise constructed without an
`attributes` argument. -/
def filterGenInit (_source : ElemGen μ) : ElemGen μ := { attrs := none }

/-- `_CacheGenerator.attributes` (lines 566-575).  `origAttrs` is
`self.__original.attributes`, the metadata of the upstream stage captured
at construction.  When cached, the property returns the original's
metadata; otherwise it evaluates `self._source.attributes`, which
succeeds while `_source` still holds the original stage object but
raises `AttributeError` (the `error` arm) once `__iter__` has swapped in
a plain iterator — importer, map/filter iterator or list iterator — which
carries no `attributes` attribute.  (`_source` is never `None` here, so
the property's `ValueError` guard on lines 570-572 never fires.) -/
def cacheAttributes (s : CacheState α) (origAttrs : Option μ) : Except Unit (Option μ) :=
  if s.cached then Except.ok origAttrs
  else
    match s.src with
    | Src.stage _ _ => Except.ok origAttrs
    | _ => Except.error ()

/-- C5, counterexample.  A filter or map stage derived from an upstream
carrying the metadata record `3` exposes `attributes = None`, not the
upstream's record: map and filter do not propagate metadata. -/
theorem C5_counterexample :
    elemGenAttributes (filterGenInit (⟨some 3⟩ : ElemGen Nat)) ≠
      elemGenAttributes (⟨some 3⟩ : ElemGen Nat) ∧
    elemGenAttributes (mapGenInit (⟨some 3⟩ : ElemGen Nat)) ≠
      elemGenAttributes (⟨some 3⟩ : ElemGen Nat) := by
  decide

/-- C5 as amended: map- and filter-derived stages expose `None` as their
metadata regardless of the upstream's record; a cache stage exposes the
upstream's metadata unchanged at construction (memory mode, before any
iteration) and in every populated state — but not, as the claim had it,
at *every* point of every derived stage's lifetime. -/
theorem C5_metadata (α μ : Type) (u : ElemGen μ) (a : Option μ) (xs : List α) (sr : Bool)
    (s : CacheState α) (hs : s.cached = true) :
    elemGenAttributes (mapGenInit u) = none ∧
    elemGenAttributes (filterGenInit u) = none ∧
    cacheAttributes (cacheInitMem xs sr) a = Except.ok a ∧
    cacheAttributes s a = Except.ok a := by
  refine ⟨rfl, rfl, rfl, ?_⟩
  simp [cacheAttributes, hs]

/-- Witness for C5 at a concrete input: a populated cache state and a
metadata record `5`. -/
theorem C5_witness :
    (⟨true, ([] : List Nat), Src.buffer, 0, 0⟩ : CacheState Nat).cached = true ∧
    (elemGenAttributes (mapGenInit (⟨some 5⟩ : ElemGen Nat)) = none ∧
      elemGenAttributes (filterGenInit (⟨some 5⟩ : ElemGen Nat)) = none ∧
      cacheAttributes (cacheInitMem ([1] : List Nat) true) (some 5) = Except.ok (some 5) ∧
      cacheAttributes (⟨true, ([] : List Nat), Src.buffer, 0, 0⟩ : CacheState Nat) (some 5) =
        Except.ok (some 5)) :=
  ⟨rfl, C5_metadata Nat Nat ⟨some 5⟩ (some 5) [1] true ⟨true, [], Src.buffer, 0, 0⟩ rfl⟩

/-! ## The XES importer (`XESImporter`, generators.py lines 209-409) -/

/-- generators.py line 16. -/
def PARSABLE_COMPRESSIONS : List String := ["gz", "zip"]

/-- `XESImporter.__init__` (lines 238-252), compression resolution.
`guessExt` is `infer_compression(filepath).extension` when the
byte-signature sniffer recognises the file's header (utils.py lines 6-7
delegate to the `filetype` sniffer), `none` when it does not.  Returns
the value stored in `self.__compression`, or the `ValueError` raised when
inference was requested and the sniffed signature is outside
`PARSABLE_COMPRESSIONS`.  The statement `compression = guess` on line 247
stands *after* the `raise` on lines 244-246 and is unreachable: on the
success path the field keeps the caller's argument verbatim — a literal
`"infer"` is never resolved to the sniffed codec.  (The non-fatal warning
emitted on line 250 carries no data and is not modelled.) -/
def xesInitCompression (guessExt : Option String) (compression : Option String) :
    Except Unit (Option String) :=
  match guessExt with
  | some ext =>
      if compression = some "infer" ∧ ext ∉ PARSABLE_COMPRESSIONS then Except.error ()
      else Except.ok compression
  | none => Except.ok compression

/-- The attribute names defined on `XESImporter` instances: its methods
(lines 238-409) and the fields assigned in `__init__` (lines 252-256);
the bases `Importer`/`BaseGenerator` (base.py) add no others.  The zip
branch of `__initialize_resources` (line 301) evaluates
`self.namelist()`, and `namelist` is not among these names. -/
def xesImporterMembers : List String :=
  ["__init__", "__iter__", "__next__", "__initialize_resources",
   "__clean_resources", "_extract_meta", "__parse_trace", "__parse_attribute",
   "__compression", "__filepath", "__source", "__archive", "__context"]

/-- Python error kinds arising during resource initialization. -/
inductive PyErr where
  | attributeError
  | typeError
  | indexError
  deriving DecidableEq, Repr

/-- The source chain `__initialize_resources` can leave behind. -/
inductive SourceChain where
  | rawFile
  | gzStream
  | zipEntry (entry : String)
  deriving DecidableEq, Repr

/-- `XESImporter.__initialize_resources` (lines 295-304): choice of the
parse source handed to the incremental parser.  `zipEntries` is the entry
list of the archive at the file path (relevant only to the zip branch).
The zip branch evaluates `self.namelist()[0]`; the attribute lookup of
`namelist` on the importer object fails (see `xesImporterMembers`), so
the branch raises `AttributeError` before any entry is selected.  With
any other non-`None` compression value — in particular the literal
`"infer"` surviving `__init__` — no branch assigns `self.__source`, which
still holds the `None` from line 254, and `etree.iterparse(None, ...)`
fails; modelled as `typeError`. -/
def initialize_resources (compression : Option String) (zipEntries : List String) :
    Except PyErr SourceChain :=
  match compression with
  | none => Except.ok SourceChain.rawFile
  | some c =>
      if c = "gz" then Except.ok SourceChain.gzStream
      else if c = "zip" then
        if "namelist" ∈ xesImporterMembers then
          match zipEntries with
          | e :: _ => Except.ok (SourceChain.zipEntry e)
          | [] => Except.error PyErr.indexError
        else Except.error PyErr.attributeError
      else Except.error PyErr.typeError

/-- C7, the code evaluated at the claim's inputs.  First conjunct: an
unsupported sniffed signature (`png`) with requested inference does fail
construction, as the claim's error half states.  Remaining conjuncts, the
failing input of the bug: for a gzip signature with requested inference,
construction succeeds but stores the literal `"infer"` — not the sniffed
codec `"gz"` — and iteration then fails to build any source chain instead
of reading through the gzip stream the explicit `"gz"` setting would
give. -/
theorem C7_infer_never_resolves :
    xesInitCompression (some "png") (some "infer") = Except.error () ∧
    xesInitCompression (some "gz") (some "infer") = Except.ok (some "infer") ∧
    (Except.ok (some "infer") : Except Unit (Option String)) ≠ Except.ok (some "gz") ∧
    initialize_resources (some "infer") [] = Except.error PyErr.typeError ∧
    initialize_resources (some "gz") [] = Except.ok SourceChain.gzStream := by
  refine ⟨rfl, rfl, by simp, rfl, rfl⟩

/-- C8, the code evaluated at the claim's input.  Beginning an iteration
with `compression="zip"` over an archive holding the single entry
`log.xes` raises `AttributeError` — `XESImporter` defines no `namelist`
attribute, yet line 301 calls `self.namelist()` — so no archive entry is
ever selected and no trace is yielded. -/
theorem C8_zip_attribute_error :
    initialize_resources (some "zip") ["log.xes"] = Except.error PyErr.attributeError ∧
    ¬ ("namelist" ∈ xesImporterMembers) := by
  refine ⟨rfl, by decide⟩

/-! ### Importer iteration and restartability -/

/-- State of an `XESImporter` between iterator-protocol calls.
`fileTraces` is the (immutable) sequence of traces the configured source
chain surfaces from the file, `compression` the stored
`self.__compression`, `zipEntries` the archive's entry list, `context`
the live parser context (`self.__context`): the traces the current pass
has not yet consumed, or `none` after `__clean_resources`. -/
structure XesState (τ : Type) where
  fileTraces : List τ
  compression : Option String
  zipEntries : List String
  context : Option (List τ)
  deriving DecidableEq, Repr

/-- `XESImporter.__iter__` (lines 258-260): (re-)initialize the resource
chain, build a fresh `etree.iterparse` context over the whole file
(surfacing the `trace` closing elements) and return `self`.  Whatever
context a previous pass left is replaced. -/
def xes_iter (s : XesState τ) : Except PyErr (XesState τ) :=
  match initialize_resources s.compression s.zipEntries with
  | Except.error e => Except.error e
  | Except.ok _ => Except.ok { s with context := some s.fileTraces }

/-- `XESImporter.__next__` (lines 262-275): yield the next parsed trace;
when the context is exhausted, run `__clean_resources` (context dropped,
handles closed) and re-raise `StopIteration`.  A `next` after cleanup is
outside the iteration protocol (the deleted context would raise); the
model reports end of sequence. -/
def xes_next (s : XesState τ) : Option τ × XesState τ :=
  match s.context with
  | some (t :: rest) => (some t, { s with context := some rest })
  | some [] => (none, { s with context := none })
  | none => (none, s)

/-- Drain at most `n` records (fuel), the consumption loop of `list(...)`. -/
def xes_drain (s : XesState τ) : Nat → List τ × XesState τ
  | 0 => ([], s)
  | n + 1 =>
      match xes_next s with
      | (none, s') => ([], s')
      | (some t, s') =>
          let p := xes_drain s' n
          (t :: p.1, p.2)

/-- One pass `list(importer)`: `__iter__`, then drain to exhaustion (fuel
`fileTraces.length + 1` reaches the terminating cleanup). -/
def xes_listPass (s : XesState τ) : Except PyErr (List τ) × XesState τ :=
  match xes_iter s with
  | Except.error e => (Except.error e, s)
  | Except.ok s' =>
      let p := xes_drain s' (s'.fileTraces.length + 1)
      (Except.ok p.1, p.2)

/-- `k` consecutive passes over the same importer instance. -/
def xes_passes : XesState τ → Nat → List (Except PyErr (List τ)) × XesState τ
  | s, 0 => ([], s)
  | s, k + 1 =>
      let p := xes_listPass s
      let q := xes_passes p.2 k
      (p.1 :: q.1, q.2)

/-- Spec-side description of a single pass: a function of the
construction-time data alone (file content and stored compression),
independent of any mutable iteration state.  Used to state
restartability. -/
def xesPassResult (ft : List τ) (compression : Option String) (zipEntries : List String) :
    Except PyErr (List τ) :=
  match initialize_resources compression zipEntries with
  | Except.error e => Except.error e
  | Except.ok _ => Except.ok ft

theorem xes_drain_eq (rem : List τ) :
    ∀ (ft : List τ) (comp : Option String) (ze : List String),
    xes_drain ⟨ft, comp, ze, some rem⟩ (rem.length + 1) = (rem, ⟨ft, comp, ze, none⟩) := by
  induction rem with
  | nil => intro ft comp ze; simp [xes_drain, xes_next]
  | cons t rest ih =>
      intro ft comp ze
      rw [List.length_cons]
      rw [show xes_drain (⟨ft, comp, ze, some (t :: rest)⟩ : XesState τ)
            (rest.length + 1 + 1) =
          (t :: (xes_drain ⟨ft, comp, ze, some rest⟩ (rest.length + 1)).1,
            (xes_drain ⟨ft, comp, ze, some rest⟩ (rest.length + 1)).2) from rfl]
      rw [ih]

/-- C6.  Importer restartability: every one of `k` consecutive passes over
the same importer instance yields the same result, a function
`xesPassResult` of the file content and stored compression alone —
whatever parser context an earlier pass (or none) left behind; and
`__iter__` builds the same fresh context regardless of the previous one,
so no two passes share a live parser context.  In particular
`len(list(...))` is identical across passes whenever passes complete. -/
theorem C6_importer_restartable (τ : Type) (ft : List τ) (comp : Option String)
    (ze : List String) (ctx : Option (List τ)) (k : Nat) :
    (xes_passes ⟨ft, comp, ze, ctx⟩ k).1 =
      List.replicate k (xesPassResult ft comp ze) ∧
    xes_iter (⟨ft, comp, ze, ctx⟩ : XesState τ) =
      xes_iter (⟨ft, comp, ze, none⟩ : XesState τ) := by
  constructor
  · induction k generalizing ctx with
    | zero => simp [xes_passes]
    | succ k ih =>
        cases h : initialize_resources comp ze with
        | error e =>
            simp [xes_passes, xes_listPass, xes_iter, h, xesPassResult, ih,
              List.replicate_succ]
        | ok c =>
            simp [xes_passes, xes_listPass, xes_iter, h, xes_drain_eq, xesPassResult, ih,
              List.replicate_succ]
  · cases h : initialize_resources comp ze with
    | error e => simp [xes_iter, h]
    | ok c => simp [xes_iter, h]

/-! ## Attribute parsing (`XESImporter.__parse_attribute`, lines 382-409) -/

/-- Boolean prefix test on lists, auxiliary to the substring test. -/
def listPre [DecidableEq β] : List β → List β → Bool
  | [], _ => true
  | _ :: _, [] => false
  | a :: as, b :: bs => decide (a = b) && listPre as bs

/-- Boolean infix test on lists. -/
def listInfix [DecidableEq β] (needle : List β) : List β → Bool
  | [] => listPre needle []
  | b :: rest => listPre needle (b :: rest) || listInfix needle rest

/-- Python's substring test `needle in hay`, used for every tag check
(`"int" in attribute.tag`, `"classifier" in elem.tag`, ...). -/
def strContains (hay needle : String) : Bool :=
  listInfix needle.toList hay.toList

/-- An XML attribute mapping (`elem.attrib`): keys are unique, access by
key; modelled as an association list. -/
abbrev Attrib := List (String × String)

/-- Dictionary access `a[k]`; `none` models the `KeyError` case. -/
def alookup (a : Attrib) (k : String) : Option String :=
  match a with
  | [] => none
  | (k', v) :: rest => if k' = k then some v else alookup rest k

/-- A Python value an XES attribute can parse to: the literal string, or
its reinterpretation by `int`, `float` or `dateutil.parser.parse`
(integers as `Int`, floating-point values as `Rat`, timestamps as an
abstract `Nat` instant). -/
inductive PyVal where
  | str (s : String)
  | intv (n : Int)
  | floatv (q : Rat)
  | datev (d : Nat)
  deriving DecidableEq, Repr

/-- One coercion attempt inside the `try` block: on success the running
`value` is reassigned to the coercion's result; on an exception the block
aborts with `value` still holding its pre-call content (carried in the
`error` arm). -/
def tryStep (f : PyVal → Except Unit PyVal) (v : PyVal) : Except PyVal PyVal :=
  match f v with
  | Except.ok w => Except.ok w
  | Except.error _ => Except.error v

/-- `XESImporter.__parse_attribute` (lines 382-409).  The literal string
value is read first (`attribute.attrib["value"]`, line 396, *outside* the
`try`: a missing key raises `KeyError`, the outer `error` arm).  Inside
one `try ... except: pass` block the value is then reinterpreted by
Python's `int` when the tag contains `"int"`, by `float` when it contains
`"float"`, and by `dateutil.parser.parse` when it contains `"date"`, in
that order; the first failing reinterpretation aborts the block and the
current value is returned.  The three library coercions are opaque
fallible functions passed as the parameters `pyInt`, `pyFloat`,
`pyDate`. -/
def parse_attribute (pyInt pyFloat pyDate : PyVal → Except Unit PyVal)
    (tag : String) (attrib : Attrib) : Except Unit PyVal :=
  match alookup attrib "value" with
  | none => Except.error ()
  | some v0 =>
      let step1 : Except PyVal PyVal :=
        if strContains tag "int" then tryStep pyInt (PyVal.str v0)
        else Except.ok (PyVal.str v0)
      let step2 : Except PyVal PyVal :=
        match step1 with
        | Except.error v => Except.error v
        | Except.ok v1 =>
            if strContains tag "float" then tryStep pyFloat v1 else Except.ok v1
      let step3 : Except PyVal PyVal :=
        match step2 with
        | Except.error v => Except.error v
        | Except.ok v2 =>
            if strContains tag "date" then tryStep pyDate v2 else Except.ok v2
      match step3 with
      | Except.ok v => Except.ok v
      | Except.error v => Except.ok v

/-- C9.  Attribute coercion fallback, for any behaviour of the three
library coercions: (totality) given the element carries a value, parsing
always returns a value and never raises, whatever the tag; and for a tag
carrying exactly the `int`, `float`, resp. `date` type hint, the result
is the corresponding reinterpretation of the literal value `v` when that
coercion succeeds and the original string `v` unchanged when it fails. -/
theorem C9_attribute_coercion (pyInt pyFloat pyDate : PyVal → Except Unit PyVal)
    (tag : String) (attrib : Attrib) (v : String)
    (hv : alookup attrib "value" = some v) :
    (∃ w, parse_attribute pyInt pyFloat pyDate tag attrib = Except.ok w) ∧
    (strContains tag "int" = true → strContains tag "float" = false →
      strContains tag "date" = false →
      parse_attribute pyInt pyFloat pyDate tag attrib =
        Except.ok (match pyInt (PyVal.str v) with
          | Except.ok w => w
          | Except.error _ => PyVal.str v)) ∧
    (strContains tag "int" = false → strContains tag "float" = true →
      strContains tag "date" = false →
      parse_attribute pyInt pyFloat pyDate tag attrib =
        Except.ok (match pyFloat (PyVal.str v) with
          | Except.ok w => w
          | Except.error _ => PyVal.str v)) ∧
    (strContains tag "int" = false → strContains tag "float" = false →
      strContains tag "date" = true →
      parse_attribute pyInt pyFloat pyDate tag attrib =
        Except.ok (match pyDate (PyVal.str v) with
          | Except.ok w => w
          | Except.error _ => PyVal.str v)) := by
  refine ⟨?_, ?_, ?_, ?_⟩
  · simp only [parse_attribute, hv]
    split
    · exact ⟨_, rfl⟩
    · exact ⟨_, rfl⟩
  · intro h1 h2 h3
    simp only [parse_attribute, hv, h1, h2, h3, if_true, Bool.false_eq_true, if_false,
      tryStep]
    cases pyInt (PyVal.str v) <;> rfl
  · intro h1 h2 h3
    simp only [parse_attribute, hv, h1, h2, h3, if_true, Bool.false_eq_true, if_false,
      tryStep]
    cases pyFloat (PyVal.str v) <;> rfl
  · intro h1 h2 h3
    simp only [parse_attribute, hv, h1, h2, h3, if_true, Bool.false_eq_true, if_false,
      tryStep]
    cases pyDate (PyVal.str v) <;> rfl

/-! Concrete instantiations of the three library coercions, used by the
witnesses: integers via decimal parsing, floats as integral rationals,
timestamps as natural-number instants (any concrete fallible functions
exercise the theorems, which hold for all of them). -/

def pyIntImpl : PyVal → Except Unit PyVal
  | PyVal.str s =>
      match s.toInt? with
      | some n => Except.ok (PyVal.intv n)
      | none => Except.error ()
  | v => Except.ok v

def pyFloatImpl : PyVal → Except Unit PyVal
  | PyVal.str s =>
      match s.toInt? with
      | some n => Except.ok (PyVal.floatv (n : Rat))
      | none => Except.error ()
  | v => Except.ok v

def pyDateImpl : PyVal → Except Unit PyVal
  | PyVal.str s =>
      match s.toNat? with
      | some n => Except.ok (PyVal.datev n)
      | none => Except.error ()
  | v => Except.ok v

/-- Witness for C9 at a concrete input: tag `int`, value `42`. -/
theorem C9_witness :
    alookup [("value", "42")] "value" = some "42" ∧
    ((∃ w, parse_attribute pyIntImpl pyFloatImpl pyDateImpl "int" [("value", "42")] =
        Except.ok w) ∧
      (strContains "int" "int" = true → strContains "int" "float" = false →
        strContains "int" "date" = false →
        parse_attribute pyIntImpl pyFloatImpl pyDateImpl "int" [("value", "42")] =
          Except.ok (match pyIntImpl (PyVal.str "42") with
            | Except.ok w => w
            | Except.error _ => PyVal.str "42")) ∧
      (strContains "int" "int" = false → strContains "int" "float" = true →
        strContains "int" "date" = false →
        parse_attribute pyIntImpl pyFloatImpl pyDateImpl "int" [("value", "42")] =
          Except.ok (match pyFloatImpl (PyVal.str "42") with
            | Except.ok w => w
            | Except.error _ => PyVal.str "42")) ∧
      (strContains "int" "int" = false → strContains "int" "float" = false →
        strContains "int" "date" = true →
        parse_attribute pyIntImpl pyFloatImpl pyDateImpl "int" [("value", "42")] =
          Except.ok (match pyDateImpl (PyVal.str "42") with
            | Except.ok w => w
            | Except.error _ => PyVal.str "42"))) :=
  ⟨rfl, C9_attribute_coercion pyIntImpl pyFloatImpl pyDateImpl "int" [("value", "42")]
    "42" rfl⟩

/-! ## Metadata extraction (`XESImporter._extract_meta`, lines 320-351)

The method opens its own context over *all* elements (no tag filter) and
folds over them: elements whose tag contains `"classifier"` populate the
`classifiers` dictionary, `"extension"` the `extensions` one, `"global"`
the `omni` record, and the first element whose tag contains `"trace"`
breaks the loop.  The `attributes` dictionary created on line 326 is
never written by any branch.  The method returns the dictionary literal
of lines 346-351, whose exactly four keys `attributes`, `classifiers`,
`extensions`, `omni` are mirrored by the four fields of `XMetaRec`. -/

/-- A leaf attribute element (tag plus XML attribute mapping), as the
children of a `global` declaration. -/
structure XAttrElem where
  tag : String
  attrib : Attrib
  deriving DecidableEq, Repr

/-- An element surfaced by the metadata-extraction context: tag, XML
attribute mapping, child attribute elements. -/
structure XLogElem where
  tag : String
  attrib : Attrib
  children : List XAttrElem
  deriving DecidableEq, Repr

/-- The `omni` dictionary, built as the literal
`{"trace": dict(), "event": dict()}` on line 327; indexing it with any
other scope raises `KeyError`. -/
structure OmniRec where
  trace : List (String × PyVal)
  event : List (String × PyVal)
  deriving DecidableEq, Repr

/-- The metadata record returned on lines 346-351. -/
structure XMetaRec where
  attributes : List (String × Attrib)
  classifiers : List (String × Attrib)
  extensions : List (String × Attrib)
  omni : OmniRec
  deriving DecidableEq, Repr

/-- Python dictionary assignment `d[k] = v` on an association list:
overwrite an existing binding in place, else append. -/
def dinsert (k : String) (v : β) : List (String × β) → List (String × β)
  | [] => [(k, v)]
  | (k', v') :: rest => if k' = k then (k, v) :: rest else (k', v') :: dinsert k v rest

/-- Lines 330-331: `classifiers[elem.attrib["name"]] = elem.attrib`; a
missing `name` key raises `KeyError`. -/
def stepClassifier (e : XLogElem) (m : XMetaRec) : Except Unit XMetaRec :=
  if strContains e.tag "classifier" then
    match alookup e.attrib "name" with
    | some nm => Except.ok { m with classifiers := dinsert nm e.attrib m.classifiers }
    | none => Except.error ()
  else Except.ok m

/-- Lines 332-333: `extensions[elem.attrib["name"]] = elem.attrib`. -/
def stepExtension (e : XLogElem) (m : XMetaRec) : Except Unit XMetaRec :=
  if strContains e.tag "extension" then
    match alookup e.attrib "name" with
    | some nm => Except.ok { m with extensions := dinsert nm e.attrib m.extensions }
    | none => Except.error ()
  else Except.ok m

/-- `omni[scope][key] = v`: indexing `omni` with a scope other than
`trace`/`event` raises `KeyError`. -/
def omniInsert (o : OmniRec) (scope key : String) (v : PyVal) : Except Unit OmniRec :=
  if scope = "trace" then Except.ok { o with trace := dinsert key v o.trace }
  else if scope = "event" then Except.ok { o with event := dinsert key v o.event }
  else Except.error ()

/-- Lines 335-337, the loop over a `global` element's children:
`omni[elem.attrib["scope"]][child.attrib["key"]] =
self.__parse_attribute(child)` for each child (the scope is looked up on
the parent element at each child). -/
def globalChildren (pyInt pyFloat pyDate : PyVal → Except Unit PyVal) (eAttrib : Attrib) :
    List XAttrElem → OmniRec → Except Unit OmniRec
  | [], o => Except.ok o
  | c :: rest, o =>
      match alookup eAttrib "scope" with
      | none => Except.error ()
      | some sc =>
          match alookup c.attrib "key" with
          | none => Except.error ()
          | some key =>
              match parse_attribute pyInt pyFloat pyDate c.tag c.attrib with
              | Except.error u => Except.error u
              | Except.ok v =>
                  match omniInsert o sc key v with
                  | Except.error u => Except.error u
                  | Except.ok o' => globalChildren pyInt pyFloat pyDate eAttrib rest o'

/-- Lines 334-337: the `global` branch. -/
def stepGlobal (pyInt pyFloat pyDate : PyVal → Except Unit PyVal)
    (e : XLogElem) (m : XMetaRec) : Except Unit XMetaRec :=
  if strContains e.tag "global" then
    match globalChildren pyInt pyFloat pyDate e.attrib e.children m.omni with
    | Except.error u => Except.error u
    | Except.ok o => Except.ok { m with omni := o }
  else Except.ok m

/-- The `for _, elem in self.__context` loop of lines 329-342: the four
substring checks in order, then `break` on the first tag containing
`"trace"`. -/
def extract_meta_loop (pyInt pyFloat pyDate : PyVal → Except Unit PyVal) :
    List XLogElem → XMetaRec → Except Unit XMetaRec
  | [], m => Except.ok m
  | e :: rest, m =>
      match stepClassifier e m with
      | Except.error u => Except.error u
      | Except.ok m1 =>
          match stepExtension e m1 with
          | Except.error u => Except.error u
          | Except.ok m2 =>
              match stepGlobal pyInt pyFloat pyDate e m2 with
              | Except.error u => Except.error u
              | Except.ok m3 =>
                  if strContains e.tag "trace" then Except.ok m3
                  else extract_meta_loop pyInt pyFloat pyDate rest m3

/-- `XESImporter._extract_meta` (lines 320-351): run the loop from the
four empty dictionaries of lines 326-327 over the elements the context
surfaces, and return the four-key record. -/
def extract_meta (pyInt pyFloat pyDate : PyVal → Except Unit PyVal)
    (elems : List XLogElem) : Except Unit XMetaRec :=
  extract_meta_loop pyInt pyFloat pyDate elems
    { attributes := [], classifiers := [], extensions := [], omni := ⟨[], []⟩ }

theorem stepClassifier_attributes (e : XLogElem) (m m' : XMetaRec)
    (h : stepClassifier e m = Except.ok m') : m'.attributes = m.attributes := by
  unfold stepClassifier at h
  split at h
  · split at h
    · rw [Except.ok.injEq] at h
      subst h
      rfl
    · exact absurd h (by simp)
  · rw [Except.ok.injEq] at h
    subst h
    rfl

theorem stepExtension_attributes (e : XLogElem) (m m' : XMetaRec)
    (h : stepExtension e m = Except.ok m') : m'.attributes = m.attributes := by
  unfold stepExtension at h
  split at h
  · split at h
    · rw [Except.ok.injEq] at h
      subst h
      rfl
    · exact absurd h (by simp)
  · rw [Except.ok.injEq] at h
    subst h
    rfl

theorem stepGlobal_attributes (pyInt pyFloat pyDate : PyVal → Except Unit PyVal)
    (e : XLogElem) (m m' : XMetaRec)
    (h : stepGlobal pyInt pyFloat pyDate e m = Except.ok m') :
    m'.attributes = m.attributes := by
  unfold stepGlobal at h
  split at h
  · split at h
    · exact absurd h (by simp)
    · rw [Except.ok.injEq] at h
      subst h
      rfl
  · rw [Except.ok.injEq] at h
    subst h
    rfl

theorem extract_meta_loop_attributes (pyInt pyFloat pyDate : PyVal → Except Unit PyVal)
    (elems : List XLogElem) :
    ∀ (m m' : XMetaRec), extract_meta_loop pyInt pyFloat pyDate elems m = Except.ok m' →
    m'.attributes = m.attributes := by
  induction elems with
  | nil =>
      intro m m' h
      unfold extract_meta_loop at h
      simp_all
  | cons e rest ih =>
      intro m m' h
      unfold extract_meta_loop at h
      split at h
      · exact absurd h (by simp)
      next m1 h1 =>
        split at h
        · exact absurd h (by simp)
        next m2 h2 =>
          split at h
          · exact absurd h (by simp)
          next m3 h3 =>
            have ha1 := stepClassifier_attributes e m m1 h1
            have ha2 := stepExtension_attributes e m1 m2 h2
            have ha3 := stepGlobal_attributes pyInt pyFloat pyDate e m2 m3 h3
            split at h
            · rw [Except.ok.injEq] at h
              subst h
              rw [ha3, ha2, ha1]
            · rw [ih m3 m' h, ha3, ha2, ha1]

/-- C10.  Whatever elements the source surfaces and whatever the library
coercions do, a successful metadata-extraction pass returns the four-key
record (`attributes`, `classifiers`, `extensions`, `omni` — the fields of
`XMetaRec`, by construction) whose `attributes` component is the empty
mapping: no branch of the loop ever writes to it, so log-level attribute
declarations are never collected. -/
theorem C10_extract_meta_attributes_empty
    (pyInt pyFloat pyDate : PyVal → Except Unit PyVal)
    (elems : List XLogElem) (m : XMetaRec)
    (h : extract_meta pyInt pyFloat pyDate elems = Except.ok m) :
    m.attributes = [] := by
  have := extract_meta_loop_attributes pyInt pyFloat pyDate elems _ m h
  simpa using this

/-- Witness for C10 at a concrete input: a source with one classifier
declaration followed by the first trace element. -/
theorem C10_witness :
    extract_meta pyIntImpl pyFloatImpl pyDateImpl
        [⟨"classifier", [("name", "Activity")], []⟩, ⟨"trace", [], []⟩] =
      Except.ok ⟨[], [("Activity", [("name", "Activity")])], [], ⟨[], []⟩⟩ ∧
    (⟨[], [("Activity", [("name", "Activity")])], [], ⟨[], []⟩⟩ : XMetaRec).attributes =
      [] :=
  ⟨by rfl,
    C10_extract_meta_attributes_empty pyIntImpl pyFloatImpl pyDateImpl
      [⟨"classifier", [("name", "Activity")], []⟩, ⟨"trace", [], []⟩]
      ⟨[], [("Activity", [("name", "Activity")])], [], ⟨[], []⟩⟩ (by rfl)⟩

end Feldspar
